import Mathlib

/-!
Shallow embedding of the Trade Proposal & Settlement Engine of the
dj-thrift marketplace backend (`TradeService` together with the tables it
touches: `trades`, `trade_items`, `track_files`, `credits_transactions`,
`access_grants`, `profiles`).

The database is a record of lists, one per table, in insertion order.
Each service method is translated statement-for-statement from the
TypeScript source.  A thrown exception is an `Except.error`; because the
settlement body runs inside `db.transaction`, an error produced inside it
leaves the stored state unchanged, which the `...AndCommit` wrappers make
explicit.  WebSocket notifications and log lines touch no stored state and
are not part of the embedding.
-/

deriving instance DecidableEq for Except

namespace DJThrift

/-- A row of the `trades` table.  Timestamps are naturals (epoch seconds);
`created_at`/`updated_at` are never read by the engine and are omitted. -/
structure Trade where
  id : String
  proposer_id : String
  receiver_id : String
  status : String
  expires_at : Nat
deriving Repr, DecidableEq

/-- A row of the `trade_items` table. -/
structure TradeItem where
  trade_id : String
  offered_by : String
  track_file_id : Option String
  credits_offered : Int
  cash_offered_cents : Int
  note : Option String
deriving Repr, DecidableEq

/-- The invariant-bearing columns of a `track_files` row. -/
structure TrackFile where
  id : String
  owner_id : String
  transferable : Bool
  locked_by_trade : Option String
deriving Repr, DecidableEq

/-- A row of the append-only `credits_transactions` ledger. -/
structure CreditsTransaction where
  user_id : String
  delta : Int
  reason : String
  balance_after : Int
deriving Repr, DecidableEq

/-- A row of the `access_grants` table. -/
structure AccessGrant where
  user_id : String
  track_file_id : String
  grant_type : String
deriving Repr, DecidableEq

/-- A `profiles` row; only the join key matters to the engine. -/
structure Profile where
  user_id : String
deriving Repr, DecidableEq

/-- The stored state: one list per table, rows in insertion order. -/
structure DB where
  trades : List Trade
  trade_items : List TradeItem
  track_files : List TrackFile
  credits_transactions : List CreditsTransaction
  access_grants : List AccessGrant
  profiles : List Profile
deriving Repr, DecidableEq

/-- Embeds `db.findById` on the trades table. -/
def findTrade (db : DB) (tradeId : String) : Option Trade :=
  db.trades.find? (fun t => t.id == tradeId)

/-- the trade_items rows of one trade. -/
def tradeItemsOf (db : DB) (tradeId : String) : List TradeItem :=
  db.trade_items.filter (fun i => i.trade_id == tradeId)

/-- Embeds `TradeService.getCreditsBalance`: `SUM(delta)` over the ledger rows of the user
rows (`|| 0` on an empty result is the empty sum). -/
def getCreditsBalance (db : DB) (userId : String) : Int :=
  ((db.credits_transactions.filter (fun t => t.user_id == userId)).map
    (fun t => t.delta)).sum

/-- Embeds `TradeService.transferCredits`: reads both balances, rejects when the
balance of the payer is below the amount, otherwise appends a debit row and a
credit row (both `balance_after` snapshots use the pre-append reads). -/
def transferCredits (db : DB) (fromUserId toUserId : String) (amount : Int)
    (reason : String) : Except String DB :=
  let fromBalance := getCreditsBalance db fromUserId
  let toBalance := getCreditsBalance db toUserId
  if fromBalance < amount then
    .error "Insufficient credits"
  else
    .ok { db with credits_transactions := db.credits_transactions ++
      [{ user_id := fromUserId, delta := -amount, reason := reason,
         balance_after := fromBalance - amount },
       { user_id := toUserId, delta := amount, reason := reason,
         balance_after := toBalance + amount }] }

/-- Embeds `TradeService.createAccessGrants`: one `access_grants` row per item
that carries a `track_file_id`, granted to `item.offered_by`. -/
def createAccessGrants (db : DB) (items : List TradeItem) : DB :=
  let rows := items.filterMap (fun item => item.track_file_id.map (fun tf =>
    { user_id := item.offered_by, track_file_id := tf,
      grant_type := "trade" : AccessGrant }))
  { db with access_grants := db.access_grants ++ rows }

/-- Embeds `db.update` of the status column of one trades row. -/
def updateTradeStatus (db : DB) (tradeId status : String) : DB :=
  { db with trades := db.trades.map (fun t =>
      if t.id == tradeId then { t with status := status } else t) }

/-- The lock update of acceptTrade: an unconditional overwrite, with no check of the previous lock value. -/
def lockTrackFiles (db : DB) (ids : List String) (tradeId : String) : DB :=
  { db with track_files := db.track_files.map (fun f =>
      if ids.contains f.id then { f with locked_by_trade := some tradeId }
      else f) }

/-- Embeds the UPDATE that nulls every `locked_by_trade` equal to the given trade id. -/
def clearLocks (db : DB) (tradeId : String) : DB :=
  { db with track_files := db.track_files.map (fun f =>
      if f.locked_by_trade == some tradeId then
        { f with locked_by_trade := none }
      else f) }

/-- The `trackFileIds` collection in `acceptTrade`: items with a truthy
`track_file_id`, projected to that id. -/
def referencedTrackFileIds (items : List TradeItem) : List String :=
  (items.filter (fun i => i.track_file_id.isSome)).filterMap
    (fun i => i.track_file_id)

/-- The `if (trackFileIds.length > 0)` lock step of `acceptTrade`. -/
def lockPhase (db : DB) (tradeId : String) (ids : List String) : DB :=
  if ids.length > 0 then lockTrackFiles db ids tradeId else db

/-- The credits loop of `acceptTrade`: for each item with
`credits_offered > 0`, transfer that amount from `item.offered_by` to the
proposer of the trade.  The cash branch only logs and is stateless. -/
def processCredits (tradeId proposerId : String) :
    List TradeItem → DB → Except String DB
  | [], db => .ok db
  | item :: rest, db =>
    if item.credits_offered > 0 then
      match transferCredits db item.offered_by proposerId
          item.credits_offered ("Trade " ++ tradeId) with
      | .error e => .error e
      | .ok db1 => processCredits tradeId proposerId rest db1
    else
      processCredits tradeId proposerId rest db

/-- Embeds `TradeService.acceptTrade` (the body of the `db.transaction` callback):
re-fetch the trade, lock every referenced file, run the credits loop,
write the access grants, mark the trade completed. -/
def acceptTrade (db : DB) (tradeId : String) : Except String DB :=
  match findTrade db tradeId with
  | none => .error "Trade not found"
  | some trade =>
    let items := tradeItemsOf db tradeId
    let db1 := lockPhase db tradeId (referencedTrackFileIds items)
    match processCredits tradeId trade.proposer_id items db1 with
    | .error e => .error e
    | .ok db2 =>
      .ok (updateTradeStatus (createAccessGrants db2 items) tradeId
        "completed")

/-- One element of a counter-offer counter_items array. -/
structure CounterItem where
  track_file_id : Option String
  credits_offered : Option Int
  cash_offered_cents : Option Int
  note : Option String
deriving Repr, DecidableEq

/-- The `response.action` argument of `respondToTrade`. -/
inductive TradeAction where
  | accept
  | decline
  | counter (counter_items : List CounterItem)
deriving Repr, DecidableEq

/-- Embeds `TradeService.handleCounterOffer`: appends the counter items as new
`trade_items` rows attributed to the responder (`x || 0` and
a default note of Counter offer). -/
def handleCounterOffer (db : DB) (tradeId userId : String)
    (counterItems : List CounterItem) : DB :=
  { db with trade_items := db.trade_items ++ counterItems.map (fun item =>
      { trade_id := tradeId, offered_by := userId,
        track_file_id := item.track_file_id,
        credits_offered := item.credits_offered.getD 0,
        cash_offered_cents := item.cash_offered_cents.getD 0,
        note := some (item.note.getD "Counter offer") }) }

/-- Embeds `TradeService.respondToTrade`: receiver-only, pending-only, then
dispatch on the action.  There is no check against `expires_at`. -/
def respondToTrade (db : DB) (tradeId userId : String)
    (action : TradeAction) : Except String (DB × String) :=
  match findTrade db tradeId with
  | none => .error "Trade not found"
  | some trade =>
    if trade.receiver_id ≠ userId then
      .error "Only the receiver can respond to a trade"
    else if trade.status ≠ "pending" then
      .error "Trade is no longer pending"
    else
      match action with
      | .accept =>
        match acceptTrade db tradeId with
        | .error e => .error e
        | .ok db1 => .ok (db1, "accept")
      | .decline => .ok (updateTradeStatus db tradeId "declined", "decline")
      | .counter items =>
        .ok (handleCounterOffer db tradeId userId items, "counter")

/-- The stored-state effect of one `respondToTrade` call: the settlement
body runs inside `db.transaction`, so a thrown error rolls every write of
the attempt back, and the guard errors are thrown before any write. -/
def respondAndCommit (db : DB) (tradeId userId : String)
    (action : TradeAction) : DB :=
  match respondToTrade db tradeId userId action with
  | .ok (db1, _) => db1
  | .error _ => db

/-- One element of `CreateTradeRequest.items`. -/
structure CreateItem where
  track_file_id : Option String
  credits_offered : Option Int
  cash_offered_cents : Option Int
  note : Option String
deriving Repr, DecidableEq

/-- One element of `CreateTradeRequest.requested_items`. -/
structure RequestedItem where
  track_file_id : String
deriving Repr, DecidableEq

/-- The `CreateTradeRequest` payload. -/
structure CreateTradeRequest where
  receiver_id : String
  items : List CreateItem
  requested_items : List RequestedItem
  expires_in_seconds : Option Nat
deriving Repr, DecidableEq

/-- Embeds `tradeData.expires_in_seconds || 86400` (JavaScript `||`: an
absent value and an explicit 0 both fall back to the default). -/
def ttlOf (req : CreateTradeRequest) : Nat :=
  match req.expires_in_seconds with
  | some n => if n = 0 then 86400 else n
  | none => 86400

/-- The row id the database hands out for a new `trades` row. -/
def freshTradeId (db : DB) : String :=
  "trade-" ++ toString db.trades.length

/-- The trade row a successful `createTrade` inserts. -/
def newTradeOf (db : DB) (pid : String) (req : CreateTradeRequest)
    (now : Nat) : Trade :=
  { id := freshTradeId db, proposer_id := pid,
    receiver_id := req.receiver_id, status := "pending",
    expires_at := now + ttlOf req }

/-- Embeds the ownership SELECT of `createTrade` (rows whose id is in the
given set, owned by the proposer, and transferable). -/
def ownershipRows (db : DB) (ids : List String) (ownerId : String) :
    List TrackFile :=
  db.track_files.filter (fun f =>
    ids.contains f.id && f.owner_id == ownerId && f.transferable)

/-- Embeds the availability SELECT of `createTrade` (rows whose id is in
the given set, transferable, and unlocked). -/
def availabilityRows (db : DB) (ids : List String) : List TrackFile :=
  db.track_files.filter (fun f =>
    ids.contains f.id && f.transferable && f.locked_by_trade == none)

/-- The `offeredTrackFiles` collection of `createTrade`: offered items
with a truthy `track_file_id`, projected to that id. -/
def offeredIdsOf (req : CreateTradeRequest) : List String :=
  req.items.filterMap (fun i => i.track_file_id)

/-- The `requestedTrackFiles` collection of `createTrade`. -/
def requestedIdsOf (req : CreateTradeRequest) : List String :=
  req.requested_items.map (fun i => i.track_file_id)

/-- Embeds `TradeService.createTrade`: the two SELECT-and-count validations, then
the `trades` row and its `trade_items` rows. -/
def createTrade (db : DB) (proposerId : String) (req : CreateTradeRequest)
    (now : Nat) : Except String (DB × Trade) :=
  if offeredIdsOf req ≠ [] ∧
      (ownershipRows db (offeredIdsOf req) proposerId).length ≠
        (offeredIdsOf req).length then
    .error "Some offered tracks do not belong to you or are not transferable"
  else
    if (requestedIdsOf req).length > 0 ∧
        (availabilityRows db (requestedIdsOf req)).length ≠
          (requestedIdsOf req).length then
      .error "Some requested tracks are not available for trading"
    else
      let trade : Trade :=
        { id := freshTradeId db, proposer_id := proposerId,
          receiver_id := req.receiver_id, status := "pending",
          expires_at := now + ttlOf req }
      let offeredRows : List TradeItem := req.items.map (fun item =>
        { trade_id := trade.id, offered_by := proposerId,
          track_file_id := item.track_file_id,
          credits_offered := item.credits_offered.getD 0,
          cash_offered_cents := item.cash_offered_cents.getD 0,
          note := item.note })
      let requestedRows : List TradeItem := req.requested_items.map
        (fun item =>
          { trade_id := trade.id, offered_by := req.receiver_id,
            track_file_id := some item.track_file_id,
            credits_offered := 0, cash_offered_cents := 0,
            note := some "Requested item" })
      let db1 := { db with
        trades := db.trades ++ [trade],
        trade_items := db.trade_items ++ offeredRows ++ requestedRows }
      .ok (db1, trade)

/-- The record `getTrade` returns. -/
structure TradeView where
  trade : Trade
  items : List TradeItem
  requested_items : List TradeItem
  proposer_profile : Option Profile
  receiver_profile : Option Profile
deriving Repr, DecidableEq

/-- Embeds `TradeService.getTrade`: party-only read of a trade, its item rows
split by side, and the two profile rows. -/
def getTrade (db : DB) (tradeId userId : String) :
    Except String TradeView :=
  match findTrade db tradeId with
  | none => .error "Trade not found"
  | some trade =>
    if trade.proposer_id ≠ userId ∧ trade.receiver_id ≠ userId then
      .error "Access denied"
    else
      let items := tradeItemsOf db tradeId
      .ok { trade := trade,
            items := items.filter (fun i => i.offered_by == trade.proposer_id),
            requested_items :=
              items.filter (fun i => i.offered_by == trade.receiver_id),
            proposer_profile :=
              db.profiles.find? (fun p => p.user_id == trade.proposer_id),
            receiver_profile :=
              db.profiles.find? (fun p => p.user_id == trade.receiver_id) }

/-- Embeds `TradeService.cancelTrade`: proposer-only, pending-only; clears the
locks held by the trade and marks it cancelled. -/
def cancelTrade (db : DB) (tradeId userId : String) : Except String DB :=
  match findTrade db tradeId with
  | none => .error "Trade not found"
  | some trade =>
    if trade.proposer_id ≠ userId then
      .error "Only the proposer can cancel a trade"
    else if trade.status ≠ "pending" then
      .error "Cannot cancel a trade that is not pending"
    else
      .ok (updateTradeStatus (clearLocks db tradeId) tradeId "cancelled")

/-- One loop body of `expireTrades`: unlock the files of the trade, then mark
the trade cancelled. -/
def expireStep (db : DB) (tradeId : String) : DB :=
  updateTradeStatus (clearLocks db tradeId) tradeId "cancelled"

/-- The SELECT of `expireTrades`: every pending trade past its expiry. -/
def pendingExpired (db : DB) (now : Nat) : List Trade :=
  db.trades.filter (fun t => t.status == "pending" && t.expires_at < now)

/-- Embeds `TradeService.expireTrades`: sweep every pending trade with
`expires_at < now`, returning the new state and the count. -/
def expireTrades (db : DB) (now : Nat) : DB × Nat :=
  ((pendingExpired db now).foldl (fun d t => expireStep d t.id) db,
   (pendingExpired db now).length)

end DJThrift

namespace DJThrift

/-- The mutating operations the service exposes (its read endpoints
`getTrade`/`getUserTrades` issue no writes).  Used to state ledger
invariants across every entry point. -/
inductive Op where
  | create (proposerId : String) (req : CreateTradeRequest) (now : Nat)
  | respond (tradeId userId : String) (action : TradeAction)
  | cancel (tradeId userId : String)
  | expire (now : Nat)
deriving Repr

/-- The stored-state effect of one exposed call: a thrown error leaves the
state unchanged (guard errors throw before any write; settlement errors
roll the transaction back). -/
def runOp (db : DB) : Op → DB
  | .create pid req now =>
    match createTrade db pid req now with
    | .ok (db1, _) => db1
    | .error _ => db
  | .respond tid uid a => respondAndCommit db tid uid a
  | .cancel tid uid =>
    match cancelTrade db tid uid with
    | .ok db1 => db1
    | .error _ => db
  | .expire now => (expireTrades db now).1

/-- The empty database. -/
def emptyDB : DB :=
  { trades := [], trade_items := [], track_files := [],
    credits_transactions := [], access_grants := [], profiles := [] }

/-- Scenario A of the spec: A (balance 500) offers track file X plus 100
credits for track file Y of B; trade `t1` is pending. -/
def scenarioA : DB :=
  { trades := [{ id := "t1", proposer_id := "A", receiver_id := "B",
                 status := "pending", expires_at := 1000 }],
    trade_items :=
      [{ trade_id := "t1", offered_by := "A", track_file_id := some "X",
         credits_offered := 100, cash_offered_cents := 0, note := none },
       { trade_id := "t1", offered_by := "B", track_file_id := some "Y",
         credits_offered := 0, cash_offered_cents := 0,
         note := some "Requested item" }],
    track_files :=
      [{ id := "X", owner_id := "A", transferable := true,
         locked_by_trade := none },
       { id := "Y", owner_id := "B", transferable := true,
         locked_by_trade := none }],
    credits_transactions :=
      [{ user_id := "A", delta := 500, reason := "init", balance_after := 500 },
       { user_id := "B", delta := 300, reason := "init", balance_after := 300 }],
    access_grants := [],
    profiles := [] }

/-- The state after B accepts trade `t1` of scenario A. -/
def scenarioA1 : DB := respondAndCommit scenarioA "t1" "B" TradeAction.accept

/-- Scenario B of the spec: two pending trades `t1` and `t2` both request
track file Y of B. -/
def scenarioB : DB :=
  { trades :=
      [{ id := "t1", proposer_id := "P1", receiver_id := "B",
         status := "pending", expires_at := 1000 },
       { id := "t2", proposer_id := "P2", receiver_id := "B",
         status := "pending", expires_at := 1000 }],
    trade_items :=
      [{ trade_id := "t1", offered_by := "B", track_file_id := some "Y",
         credits_offered := 0, cash_offered_cents := 0,
         note := some "Requested item" },
       { trade_id := "t2", offered_by := "B", track_file_id := some "Y",
         credits_offered := 0, cash_offered_cents := 0,
         note := some "Requested item" }],
    track_files :=
      [{ id := "Y", owner_id := "B", transferable := true,
         locked_by_trade := none }],
    credits_transactions := [], access_grants := [], profiles := [] }

/-- Scenario B after B accepts the first trade. -/
def scenarioB1 : DB := respondAndCommit scenarioB "t1" "B" TradeAction.accept

/-- Scenario C of the spec: A offers 1000 credits while holding 200. -/
def scenarioC : DB :=
  { trades := [{ id := "t1", proposer_id := "A", receiver_id := "B",
                 status := "pending", expires_at := 1000 }],
    trade_items :=
      [{ trade_id := "t1", offered_by := "A", track_file_id := none,
         credits_offered := 1000, cash_offered_cents := 0, note := none }],
    track_files := [],
    credits_transactions :=
      [{ user_id := "A", delta := 200, reason := "init", balance_after := 200 }],
    access_grants := [], profiles := [] }

/-- Scenario D of the spec: an unanswered pending trade `tD` that expired
at 60, with track file Z still locked by it. -/
def scenarioD : DB :=
  { trades := [{ id := "tD", proposer_id := "P", receiver_id := "B",
                 status := "pending", expires_at := 60 }],
    trade_items := [],
    track_files :=
      [{ id := "Z", owner_id := "B", transferable := true,
         locked_by_trade := some "tD" }],
    credits_transactions := [], access_grants := [], profiles := [] }

/-- A pending trade `tE` whose expiry (0) is long past. -/
def expiredPendingDB : DB :=
  { trades := [{ id := "tE", proposer_id := "P", receiver_id := "B",
                 status := "pending", expires_at := 0 }],
    trade_items := [], track_files := [],
    credits_transactions := [], access_grants := [], profiles := [] }

/-- A trade `tF` that is already completed, for the guard checks. -/
def resolvedTradeDB : DB :=
  { trades := [{ id := "tF", proposer_id := "P", receiver_id := "B",
                 status := "completed", expires_at := 1000 }],
    trade_items := [], track_files := [],
    credits_transactions := [], access_grants := [], profiles := [] }

/-- A createTrade request in which the proposer addresses themselves and
offers a negative credit amount. -/
def selfTradeReq : CreateTradeRequest :=
  { receiver_id := "A",
    items := [{ track_file_id := none, credits_offered := some (-5),
                cash_offered_cents := none, note := none }],
    requested_items := [], expires_in_seconds := none }

/-- A plain createTrade request from P to R with a 60 second ttl. -/
def plainReq : CreateTradeRequest :=
  { receiver_id := "R", items := [], requested_items := [],
    expires_in_seconds := some 60 }

/-- The trade row `createTrade emptyDB "P" plainReq 5` inserts. -/
def wtrade9 : Trade :=
  { id := "trade-0", proposer_id := "P", receiver_id := "R",
    status := "pending", expires_at := 65 }

/-- The state `createTrade emptyDB "P" plainReq 5` produces. -/
def wdb9 : DB := { emptyDB with trades := [wtrade9] }

/-- The self-addressed trade row `createTrade emptyDB "A" selfTradeReq 0`
inserts. -/
def selfTradeResult : Trade :=
  { id := "trade-0", proposer_id := "A", receiver_id := "A",
    status := "pending", expires_at := 86400 }

/-- The item row `createTrade emptyDB "A" selfTradeReq 0` inserts. -/
def selfTradeItem : TradeItem :=
  { trade_id := "trade-0", offered_by := "A", track_file_id := none,
    credits_offered := -5, cash_offered_cents := 0, note := none }

/-- The state `createTrade emptyDB "A" selfTradeReq 0` produces. -/
def selfTradeResultDB : DB :=
  { emptyDB with trades := [selfTradeResult], trade_items := [selfTradeItem] }

/-- Marks a trade cancelled when its id is in the swept set. -/
def cancelIfIn (ids : List String) (t : Trade) : Trade :=
  if ids.contains t.id then { t with status := "cancelled" } else t

/-- Releases a lock held by any trade of the swept set. -/
def unlockIfIn (ids : List String) (f : TrackFile) : TrackFile :=
  match f.locked_by_trade with
  | some tid =>
    if ids.contains tid then { f with locked_by_trade := none } else f
  | none => f

end DJThrift

namespace DJThrift

/-- Balances only read the ledger table. -/
theorem getCreditsBalance_congr {db db' : DB}
    (h : db'.credits_transactions = db.credits_transactions) (u : String) :
    getCreditsBalance db' u = getCreditsBalance db u := by
  simp [getCreditsBalance, h]

theorem updateTradeStatus_tx (db : DB) (tid s : String) :
    (updateTradeStatus db tid s).credits_transactions =
      db.credits_transactions := rfl

theorem lockTrackFiles_tx (db : DB) (ids : List String) (tid : String) :
    (lockTrackFiles db ids tid).credits_transactions =
      db.credits_transactions := rfl

theorem clearLocks_tx (db : DB) (tid : String) :
    (clearLocks db tid).credits_transactions = db.credits_transactions := rfl

theorem createAccessGrants_tx (db : DB) (items : List TradeItem) :
    (createAccessGrants db items).credits_transactions =
      db.credits_transactions := rfl

theorem handleCounterOffer_tx (db : DB) (tid uid : String)
    (items : List CounterItem) :
    (handleCounterOffer db tid uid items).credits_transactions =
      db.credits_transactions := rfl

theorem lockPhase_tx (db : DB) (tid : String) (ids : List String) :
    (lockPhase db tid ids).credits_transactions =
      db.credits_transactions := by
  unfold lockPhase
  split <;> rfl

theorem expireStep_tx (db : DB) (tid : String) :
    (expireStep db tid).credits_transactions = db.credits_transactions := rfl

/-- A successful transfer requires the pre-read payer balance to cover the
amount. -/
theorem transferCredits_le {db db' : DB} {f t r : String} {a : Int}
    (h : transferCredits db f t a r = Except.ok db') :
    a ≤ getCreditsBalance db f := by
  unfold transferCredits at h
  by_cases hlt : getCreditsBalance db f < a
  · simp [hlt] at h
  · omega

/-- The ledger rows a successful transfer appends. -/
theorem transferCredits_tx {db db' : DB} {f t r : String} {a : Int}
    (h : transferCredits db f t a r = Except.ok db') :
    db'.credits_transactions = db.credits_transactions ++
      [{ user_id := f, delta := -a, reason := r,
         balance_after := getCreditsBalance db f - a },
       { user_id := t, delta := a, reason := r,
         balance_after := getCreditsBalance db t + a }] := by
  unfold transferCredits at h
  by_cases hlt : getCreditsBalance db f < a
  · simp [hlt] at h
  · simp [hlt] at h
    subst h
    rfl

/-- Pointwise balance effect of a successful transfer. -/
theorem transferCredits_balance {db db' : DB} {f t r : String} {a : Int}
    (h : transferCredits db f t a r = Except.ok db') (u : String) :
    getCreditsBalance db' u = getCreditsBalance db u +
      (if f = u then -a else 0) + (if t = u then a else 0) := by
  have htx := transferCredits_tx h
  by_cases hf : f = u <;> by_cases ht : t = u <;>
    simp [getCreditsBalance, htx, List.filter_append, hf, ht]

/-- A successful positive transfer keeps every balance non-negative. -/
theorem transferCredits_nonneg {db db' : DB} {f t r : String} {a : Int}
    (h : transferCredits db f t a r = Except.ok db') (ha : 0 < a)
    (hnn : ∀ u, 0 ≤ getCreditsBalance db u) :
    ∀ u, 0 ≤ getCreditsBalance db' u := by
  intro u
  have hb := transferCredits_balance h u
  have hg := transferCredits_le h
  have h1 := hnn u
  by_cases hf : f = u
  · rw [hf] at hg
    by_cases ht : t = u <;> simp [hf, ht] at hb <;> omega
  · by_cases ht : t = u <;> simp [hf, ht] at hb <;> omega

end DJThrift

namespace DJThrift

/-- A successful credits loop keeps every balance non-negative: each
transfer it performs is positive and guard-checked. -/
theorem processCredits_nonneg {tid pid : String} :
    ∀ {items : List TradeItem} {db db' : DB},
      processCredits tid pid items db = Except.ok db' →
      (∀ u, 0 ≤ getCreditsBalance db u) →
      ∀ u, 0 ≤ getCreditsBalance db' u := by
  intro items
  induction items with
  | nil =>
    intro db db' h hnn
    unfold processCredits at h
    simp only [Except.ok.injEq] at h
    subst h
    exact hnn
  | cons item rest ih =>
    intro db db' h hnn
    unfold processCredits at h
    by_cases hpos : item.credits_offered > 0
    · rw [if_pos hpos] at h
      cases htc : transferCredits db item.offered_by pid
          item.credits_offered ("Trade " ++ tid) with
      | error e => rw [htc] at h; simp at h
      | ok db1 =>
        rw [htc] at h
        exact ih h (transferCredits_nonneg htc hpos hnn)
    · rw [if_neg hpos] at h
      exact ih h hnn

/-- A successful settlement keeps every balance non-negative. -/
theorem acceptTrade_nonneg {db db' : DB} {tid : String}
    (h : acceptTrade db tid = Except.ok db')
    (hnn : ∀ u, 0 ≤ getCreditsBalance db u) :
    ∀ u, 0 ≤ getCreditsBalance db' u := by
  unfold acceptTrade at h
  cases hft : findTrade db tid with
  | none => rw [hft] at h; simp at h
  | some trade =>
    rw [hft] at h
    simp only at h
    cases hpc : processCredits tid trade.proposer_id (tradeItemsOf db tid)
        (lockPhase db tid (referencedTrackFileIds (tradeItemsOf db tid))) with
    | error e => rw [hpc] at h; simp at h
    | ok db2 =>
      rw [hpc] at h
      simp only [Except.ok.injEq] at h
      subst h
      have hnn1 : ∀ u, 0 ≤ getCreditsBalance
          (lockPhase db tid (referencedTrackFileIds (tradeItemsOf db tid))) u :=
        fun u => by rw [getCreditsBalance_congr (lockPhase_tx db tid _) u]; exact hnn u
      have h2 := processCredits_nonneg hpc hnn1
      intro u
      rw [getCreditsBalance_congr (by rw [updateTradeStatus_tx, createAccessGrants_tx]) u]
      exact h2 u

/-- A successful cancellation leaves the ledger untouched. -/
theorem cancelTrade_tx {db db' : DB} {tid uid : String}
    (h : cancelTrade db tid uid = Except.ok db') :
    db'.credits_transactions = db.credits_transactions := by
  unfold cancelTrade at h
  cases hft : findTrade db tid with
  | none => rw [hft] at h; simp at h
  | some trade =>
    rw [hft] at h
    simp only at h
    by_cases h1 : trade.proposer_id ≠ uid
    · rw [if_pos h1] at h; simp at h
    · rw [if_neg h1] at h
      by_cases h2 : trade.status ≠ "pending"
      · rw [if_pos h2] at h; simp at h
      · rw [if_neg h2] at h
        simp only [Except.ok.injEq] at h
        subst h
        rfl

/-- What a successful `createTrade` writes: the new pending trade row and
its item rows; every other table is untouched. -/
theorem createTrade_ok_tables {db db' : DB} {pid : String}
    {req : CreateTradeRequest} {now : Nat} {trade : Trade}
    (h : createTrade db pid req now = Except.ok (db', trade)) :
    trade = newTradeOf db pid req now ∧
    db'.trades = db.trades ++ [trade] ∧
    db'.track_files = db.track_files ∧
    db'.credits_transactions = db.credits_transactions ∧
    db'.access_grants = db.access_grants := by
  unfold createTrade at h
  by_cases h1 : offeredIdsOf req ≠ [] ∧
      (ownershipRows db (offeredIdsOf req) pid).length ≠
        (offeredIdsOf req).length
  · rw [if_pos h1] at h; simp at h
  · rw [if_neg h1] at h
    by_cases h2 : (requestedIdsOf req).length > 0 ∧
        (availabilityRows db (requestedIdsOf req)).length ≠
          (requestedIdsOf req).length
    · rw [if_pos h2] at h; simp at h
    · rw [if_neg h2] at h
      simp only [Except.ok.injEq, Prod.mk.injEq] at h
      obtain ⟨hdb, htr⟩ := h
      subst hdb
      subst htr
      exact ⟨rfl, rfl, rfl, rfl, rfl⟩

/-- Lemma: `createTrade` succeeds exactly when the two SELECT-and-count
validations pass; no other input property is checked. -/
theorem createTrade_ok_iff (db : DB) (pid : String)
    (req : CreateTradeRequest) (now : Nat) :
    (∃ r, createTrade db pid req now = Except.ok r) ↔
      (offeredIdsOf req = [] ∨
        (ownershipRows db (offeredIdsOf req) pid).length =
          (offeredIdsOf req).length) ∧
      ((requestedIdsOf req).length = 0 ∨
        (availabilityRows db (requestedIdsOf req)).length =
          (requestedIdsOf req).length) := by
  unfold createTrade
  by_cases h1 : offeredIdsOf req ≠ [] ∧
      (ownershipRows db (offeredIdsOf req) pid).length ≠
        (offeredIdsOf req).length
  · rw [if_pos h1]
    constructor
    · rintro ⟨r, hr⟩; simp at hr
    · rintro ⟨hA, hB⟩
      rcases hA with hA | hA
      · exact absurd hA h1.1
      · exact absurd hA h1.2
  · rw [if_neg h1]
    by_cases h2 : (requestedIdsOf req).length > 0 ∧
        (availabilityRows db (requestedIdsOf req)).length ≠
          (requestedIdsOf req).length
    · rw [if_pos h2]
      constructor
      · rintro ⟨r, hr⟩; simp at hr
      · rintro ⟨hA, hB⟩
        rcases hB with hB | hB
        · omega
        · exact absurd hB h2.2
    · rw [if_neg h2]
      push_neg at h1 h2
      constructor
      · intro _
        constructor
        · by_cases hz : offeredIdsOf req = []
          · exact Or.inl hz
          · exact Or.inr (h1 hz)
        · by_cases hz : (requestedIdsOf req).length = 0
          · exact Or.inl hz
          · exact Or.inr (h2 (by omega))
      · intro _
        exact ⟨_, rfl⟩

end DJThrift

namespace DJThrift

theorem map_self {α : Type} (l : List α) : l.map (fun a => a) = l := by
  induction l <;> simp_all

theorem cancelIfIn_step (ids : List String) (tid : String) (t : Trade) :
    cancelIfIn ids
      (if t.id == tid then { t with status := "cancelled" } else t) =
    cancelIfIn (tid :: ids) t := by
  by_cases h : t.id = tid
  · simp only [cancelIfIn, h, beq_self_eq_true, if_true, List.contains_cons,
      beq_self_eq_true, Bool.true_or, if_true]
    split <;> rfl
  · simp only [cancelIfIn, beq_iff_eq, h, if_false, List.contains_cons]
    have : (t.id == tid) = false := by simp [h]
    rw [this]
    simp

theorem unlockIfIn_step (ids : List String) (tid : String) (f : TrackFile) :
    unlockIfIn ids
      (if f.locked_by_trade == some tid then
        { f with locked_by_trade := none } else f) =
    unlockIfIn (tid :: ids) f := by
  cases hl : f.locked_by_trade with
  | none => simp [unlockIfIn, hl]
  | some t2 =>
    by_cases h : t2 = tid
    · simp [unlockIfIn, hl, h]
    · have hb : ((some t2 : Option String) == some tid) = false := by
        simp [h]
      have hbt : (t2 == tid) = false := by simp [h]
      simp [unlockIfIn, hl, hb, hbt, List.contains_cons, h]

theorem expireStep_trades (db : DB) (tid : String) :
    (expireStep db tid).trades = db.trades.map (fun t =>
      if t.id == tid then { t with status := "cancelled" } else t) := rfl

theorem expireStep_files (db : DB) (tid : String) :
    (expireStep db tid).track_files = db.track_files.map (fun f =>
      if f.locked_by_trade == some tid then
        { f with locked_by_trade := none } else f) := rfl

theorem foldl_expireStep_trades (L : List Trade) (db : DB) :
    (L.foldl (fun d t => expireStep d t.id) db).trades =
      db.trades.map (cancelIfIn (L.map (fun t => t.id))) := by
  induction L generalizing db with
  | nil =>
    simp only [List.foldl_nil, List.map_nil]
    rw [show cancelIfIn ([] : List String) = fun t => t from
      funext (fun t => by simp [cancelIfIn]), map_self]
  | cons t L ih =>
    simp only [List.foldl_cons, List.map_cons]
    rw [ih, expireStep_trades, List.map_map]
    rw [show (cancelIfIn (L.map (fun t => t.id)) ∘ fun tr =>
        if tr.id == t.id then { tr with status := "cancelled" } else tr) =
      cancelIfIn (t.id :: L.map (fun t => t.id)) from
      funext (fun tr => cancelIfIn_step _ _ tr)]

theorem foldl_expireStep_files (L : List Trade) (db : DB) :
    (L.foldl (fun d t => expireStep d t.id) db).track_files =
      db.track_files.map (unlockIfIn (L.map (fun t => t.id))) := by
  induction L generalizing db with
  | nil =>
    simp only [List.foldl_nil, List.map_nil]
    rw [show unlockIfIn ([] : List String) = fun f => f from
      funext (fun f => by cases hl : f.locked_by_trade <;>
        simp [unlockIfIn, hl]), map_self]
  | cons t L ih =>
    simp only [List.foldl_cons, List.map_cons]
    rw [ih, expireStep_files, List.map_map]
    rw [show (unlockIfIn (L.map (fun t => t.id)) ∘ fun f =>
        if f.locked_by_trade == some t.id then
          { f with locked_by_trade := none } else f) =
      unlockIfIn (t.id :: L.map (fun t => t.id)) from
      funext (fun f => unlockIfIn_step _ _ f)]

theorem foldl_expireStep_rest (L : List Trade) (db : DB) :
    (L.foldl (fun d t => expireStep d t.id) db).trade_items =
        db.trade_items ∧
    (L.foldl (fun d t => expireStep d t.id) db).credits_transactions =
        db.credits_transactions ∧
    (L.foldl (fun d t => expireStep d t.id) db).access_grants =
        db.access_grants ∧
    (L.foldl (fun d t => expireStep d t.id) db).profiles = db.profiles := by
  induction L generalizing db with
  | nil => exact ⟨rfl, rfl, rfl, rfl⟩
  | cons t L ih => exact ih (expireStep db t.id)

theorem DB_ext {a b : DB} (h1 : a.trades = b.trades)
    (h2 : a.trade_items = b.trade_items)
    (h3 : a.track_files = b.track_files)
    (h4 : a.credits_transactions = b.credits_transactions)
    (h5 : a.access_grants = b.access_grants)
    (h6 : a.profiles = b.profiles) : a = b := by
  cases a; cases b; simp_all

/-- Closed form of one sweep: the swept trades become cancelled, their
locks are released, everything else is untouched. -/
theorem expireTrades_state (db : DB) (now : Nat) :
    (expireTrades db now).1 = { db with
      trades := db.trades.map
        (cancelIfIn ((pendingExpired db now).map (fun t => t.id))),
      track_files := db.track_files.map
        (unlockIfIn ((pendingExpired db now).map (fun t => t.id))) } := by
  have h := foldl_expireStep_rest (pendingExpired db now) db
  exact DB_ext (foldl_expireStep_trades _ _) h.1 (foldl_expireStep_files _ _)
    h.2.1 h.2.2.1 h.2.2.2

end DJThrift

namespace DJThrift

theorem expireTrades_trades (db : DB) (now : Nat) :
    (expireTrades db now).1.trades = db.trades.map
      (cancelIfIn ((pendingExpired db now).map (fun t => t.id))) :=
  foldl_expireStep_trades _ _

theorem expireTrades_files (db : DB) (now : Nat) :
    (expireTrades db now).1.track_files = db.track_files.map
      (unlockIfIn ((pendingExpired db now).map (fun t => t.id))) :=
  foldl_expireStep_files _ _

/-- After one sweep no pending-and-expired trade remains (for the same
reading of the clock). -/
theorem pendingExpired_after (db : DB) (now : Nat) :
    pendingExpired (expireTrades db now).1 now = [] := by
  unfold pendingExpired
  rw [expireTrades_trades]
  apply List.filter_eq_nil_iff.mpr
  intro tr htr
  simp only [List.mem_map] at htr
  obtain ⟨t0, ht0, rfl⟩ := htr
  by_cases hc : ((pendingExpired db now).map
      (fun t => t.id)).contains t0.id = true
  · unfold cancelIfIn
    rw [if_pos hc]
    simp
  · unfold cancelIfIn
    rw [if_neg hc]
    intro hp
    apply hc
    have hmem : t0 ∈ pendingExpired db now :=
      List.mem_filter.mpr ⟨ht0, hp⟩
    have : t0.id ∈ (pendingExpired db now).map (fun t => t.id) :=
      List.mem_map.mpr ⟨t0, hmem, rfl⟩
    simpa using this

/-- Case analysis of a successful `respondToTrade`. -/
theorem respondToTrade_ok_cases {db db1 : DB} {tid uid s : String}
    {a : TradeAction}
    (h : respondToTrade db tid uid a = Except.ok (db1, s)) :
    acceptTrade db tid = Except.ok db1 ∨
    db1 = updateTradeStatus db tid "declined" ∨
    ∃ items, db1 = handleCounterOffer db tid uid items := by
  unfold respondToTrade at h
  cases hft : findTrade db tid with
  | none => rw [hft] at h; simp at h
  | some trade =>
    rw [hft] at h
    simp only at h
    by_cases h1 : trade.receiver_id ≠ uid
    · rw [if_pos h1] at h; simp at h
    · rw [if_neg h1] at h
      by_cases h2 : trade.status ≠ "pending"
      · rw [if_pos h2] at h; simp at h
      · rw [if_neg h2] at h
        cases a with
        | accept =>
          cases hac : acceptTrade db tid with
          | error e => rw [hac] at h; simp at h
          | ok db2 =>
            rw [hac] at h
            simp only [Except.ok.injEq, Prod.mk.injEq] at h
            exact Or.inl (by rw [← h.1])
        | decline =>
          simp only [Except.ok.injEq, Prod.mk.injEq] at h
          exact Or.inr (Or.inl h.1.symm)
        | counter items =>
          simp only [Except.ok.injEq, Prod.mk.injEq] at h
          exact Or.inr (Or.inr ⟨items, h.1.symm⟩)

end DJThrift

namespace DJThrift

theorem scenarioA_nonneg : ∀ v, 0 ≤ getCreditsBalance scenarioA v := by
  intro v
  cases hA : ("A" == v) <;> cases hB : ("B" == v) <;>
    simp [getCreditsBalance, scenarioA, List.filter, hA, hB]

/-- C4: the balance of every user is the sum of the deltas of that user
in the ledger, and every exposed mutating operation preserves
non-negativity of every balance. -/
theorem credits_balance_sum_and_nonneg (db : DB) (op : Op) (u : String)
    (hnn : ∀ v, 0 ≤ getCreditsBalance db v) :
    getCreditsBalance db u =
      ((db.credits_transactions.filter (fun t => t.user_id == u)).map
        (fun t => t.delta)).sum ∧
    0 ≤ getCreditsBalance (runOp db op) u := by
  refine ⟨rfl, ?_⟩
  cases op with
  | create pid req now =>
    cases hc : createTrade db pid req now with
    | error e => simp only [runOp, hc]; exact hnn u
    | ok r =>
      obtain ⟨db1, trade⟩ := r
      simp only [runOp, hc]
      rw [getCreditsBalance_congr (createTrade_ok_tables hc).2.2.2.1 u]
      exact hnn u
  | respond tid uid a =>
    simp only [runOp]
    unfold respondAndCommit
    cases hr : respondToTrade db tid uid a with
    | error e => exact hnn u
    | ok r =>
      obtain ⟨db1, s⟩ := r
      rcases respondToTrade_ok_cases hr with hac | hdec | ⟨items, hco⟩
      · exact acceptTrade_nonneg hac hnn u
      · rw [hdec, getCreditsBalance_congr (updateTradeStatus_tx db tid "declined") u]
        exact hnn u
      · rw [hco, getCreditsBalance_congr (handleCounterOffer_tx db tid uid items) u]
        exact hnn u
  | cancel tid uid =>
    cases hc : cancelTrade db tid uid with
    | error e => simp only [runOp, hc]; exact hnn u
    | ok db1 =>
      simp only [runOp, hc]
      rw [getCreditsBalance_congr (cancelTrade_tx hc) u]
      exact hnn u
  | expire now =>
    simp only [runOp]
    show 0 ≤ getCreditsBalance
      ((pendingExpired db now).foldl (fun d t => expireStep d t.id) db) u
    rw [getCreditsBalance_congr
      (foldl_expireStep_rest (pendingExpired db now) db).2.1 u]
    exact hnn u

/-- Witness for C4 at scenario A under the accepting response. -/
theorem credits_balance_sum_and_nonneg_witness :
    getCreditsBalance scenarioA "A" =
      ((scenarioA.credits_transactions.filter
        (fun t => t.user_id == "A")).map (fun t => t.delta)).sum ∧
    0 ≤ getCreditsBalance
      (runOp scenarioA (Op.respond "t1" "B" TradeAction.accept)) "A" :=
  credits_balance_sum_and_nonneg scenarioA
    (Op.respond "t1" "B" TradeAction.accept) "A" scenarioA_nonneg

end DJThrift

namespace DJThrift

/-- C1: evaluation of settlement on scenario A.  The settlement completes
the trade but never re-parents the files, writes each AccessGrant for the
party that offered the item (not the counterparty), and leaves
`locked_by_trade` set instead of clearing it. -/
theorem settlement_leaves_ownership_grants_and_locks :
    respondToTrade scenarioA "t1" "B" TradeAction.accept =
      Except.ok (scenarioA1, "accept") ∧
    scenarioA1.track_files.map (fun f => (f.id, f.owner_id, f.locked_by_trade)) =
      [("X", "A", some "t1"), ("Y", "B", some "t1")] ∧
    scenarioA1.access_grants =
      [{ user_id := "A", track_file_id := "X", grant_type := "trade" },
       { user_id := "B", track_file_id := "Y", grant_type := "trade" }] ∧
    (findTrade scenarioA1 "t1").map (fun t => t.status) = some "completed" := by
  decide

/-- C2: evaluation of the credits leg on scenario A.  The transfer target
is always the proposer, so the credits offered by proposer A produce a
debit and a credit both for A; the counterparty B receives nothing and
the balance of A is unchanged. -/
theorem settlement_credits_go_to_proposer :
    scenarioA1.credits_transactions =
      [{ user_id := "A", delta := 500, reason := "init", balance_after := 500 },
       { user_id := "B", delta := 300, reason := "init", balance_after := 300 },
       { user_id := "A", delta := -100, reason := "Trade t1", balance_after := 400 },
       { user_id := "A", delta := 100, reason := "Trade t1", balance_after := 600 }] ∧
    getCreditsBalance scenarioA1 "A" = 500 ∧
    getCreditsBalance scenarioA1 "B" = 300 := by
  decide

/-- C3: evaluation of scenario B.  After the first trade settles, the
second acceptance succeeds as well — the lock write is an unconditional
overwrite — and the second trade also completes instead of failing with a
conflict and becoming cancelled. -/
theorem second_accept_on_locked_file_succeeds :
    (findTrade scenarioB1 "t1").map (fun t => t.status) = some "completed" ∧
    (findTrade scenarioB1 "t2").map (fun t => t.status) = some "pending" ∧
    scenarioB1.track_files.map (fun f => f.locked_by_trade) = [some "t1"] ∧
    respondToTrade scenarioB1 "t2" "B" TradeAction.accept =
      Except.ok (respondAndCommit scenarioB1 "t2" "B" TradeAction.accept,
        "accept") ∧
    (findTrade (respondAndCommit scenarioB1 "t2" "B" TradeAction.accept)
      "t2").map (fun t => t.status) = some "completed" ∧
    (respondAndCommit scenarioB1 "t2" "B" TradeAction.accept).track_files.map
      (fun f => f.locked_by_trade) = [some "t2"] := by
  decide

/-- C5: a settlement attempt that fails at the credit check leaves the
stored state exactly as it was: same ledger balances, no new access
grants, no lock residue, and the trade rows (hence the status) untouched. -/
theorem failed_settlement_rolls_back (db : DB) (tid uid : String)
    (h : respondToTrade db tid uid TradeAction.accept =
      Except.error "Insufficient credits") :
    respondAndCommit db tid uid TradeAction.accept = db ∧
    (∀ u, getCreditsBalance (respondAndCommit db tid uid TradeAction.accept) u
      = getCreditsBalance db u) ∧
    (respondAndCommit db tid uid TradeAction.accept).access_grants =
      db.access_grants ∧
    (respondAndCommit db tid uid TradeAction.accept).track_files =
      db.track_files ∧
    (respondAndCommit db tid uid TradeAction.accept).trades = db.trades := by
  have hc : respondAndCommit db tid uid TradeAction.accept = db := by
    unfold respondAndCommit
    rw [h]
  exact ⟨hc, fun u => by rw [hc], by rw [hc], by rw [hc], by rw [hc]⟩

/-- Witness for C5 at scenario C, where the credit check fails. -/
theorem failed_settlement_rolls_back_witness :
    respondAndCommit scenarioC "t1" "B" TradeAction.accept = scenarioC ∧
    (∀ u, getCreditsBalance
      (respondAndCommit scenarioC "t1" "B" TradeAction.accept) u
      = getCreditsBalance scenarioC u) ∧
    (respondAndCommit scenarioC "t1" "B" TradeAction.accept).access_grants =
      scenarioC.access_grants ∧
    (respondAndCommit scenarioC "t1" "B" TradeAction.accept).track_files =
      scenarioC.track_files ∧
    (respondAndCommit scenarioC "t1" "B" TradeAction.accept).trades =
      scenarioC.trades :=
  failed_settlement_rolls_back scenarioC "t1" "B" (by decide)

/-- C6 counterexample: the sweep marks the expired pending trade
`cancelled`, not `expired`, while releasing its lock. -/
theorem expire_marks_cancelled_not_expired :
    (findTrade scenarioD "tD").map (fun t => (t.status, t.expires_at)) =
      some ("pending", 60) ∧
    (findTrade (expireTrades scenarioD 61).1 "tD").map (fun t => t.status) =
      some "cancelled" ∧
    (findTrade (expireTrades scenarioD 61).1 "tD").map (fun t => t.status) ≠
      some "expired" ∧
    (expireTrades scenarioD 61).1.track_files.map
      (fun f => f.locked_by_trade) = [none] := by
  decide

/-- C6 (amended): for every pending trade past its expiry, one sweep
clears every lock pointing at it and sets its status to cancelled. -/
theorem expire_clears_and_cancels (db : DB) (now : Nat) (t : Trade)
    (hmem : t ∈ db.trades) (hp : t.status = "pending")
    (hx : t.expires_at < now) :
    (∀ t2 ∈ (expireTrades db now).1.trades, t2.id = t.id →
        t2.status = "cancelled") ∧
    (∀ f ∈ (expireTrades db now).1.track_files,
        f.locked_by_trade ≠ some t.id) := by
  have hmemPE : t ∈ pendingExpired db now :=
    List.mem_filter.mpr ⟨hmem, by simp [hp, hx]⟩
  have hcont : ((pendingExpired db now).map
      (fun t => t.id)).contains t.id = true := by
    have hm : t.id ∈ (pendingExpired db now).map (fun t => t.id) :=
      List.mem_map.mpr ⟨t, hmemPE, rfl⟩
    simpa using hm
  constructor
  · intro t2 ht2 hteq
    rw [expireTrades_trades] at ht2
    simp only [List.mem_map] at ht2
    obtain ⟨t0, ht0, rfl⟩ := ht2
    have hid0 : (cancelIfIn ((pendingExpired db now).map
        (fun t => t.id)) t0).id = t0.id := by
      unfold cancelIfIn; split <;> rfl
    rw [hid0] at hteq
    unfold cancelIfIn
    rw [if_pos (by rw [hteq]; exact hcont)]
  · intro f hf
    rw [expireTrades_files] at hf
    simp only [List.mem_map] at hf
    obtain ⟨f0, hf0, rfl⟩ := hf
    unfold unlockIfIn
    cases hl : f0.locked_by_trade with
    | none => simp [hl]
    | some tid2 =>
      simp only
      by_cases hc2 : ((pendingExpired db now).map
          (fun t => t.id)).contains tid2 = true
      · rw [if_pos hc2]; simp
      · rw [if_neg hc2]
        rw [hl]
        intro hco
        apply hc2
        have heq : tid2 = t.id := by injection hco
        rw [heq]; exact hcont

/-- Witness for the amended C6 at scenario D. -/
theorem expire_clears_and_cancels_witness :
    (∀ t2 ∈ (expireTrades scenarioD 61).1.trades,
        t2.id = "tD" → t2.status = "cancelled") ∧
    (∀ f ∈ (expireTrades scenarioD 61).1.track_files,
        f.locked_by_trade ≠ some "tD") :=
  expire_clears_and_cancels scenarioD 61
    { id := "tD", proposer_id := "P", receiver_id := "B",
      status := "pending", expires_at := 60 }
    (by decide) rfl (by decide)

/-- C7: running the sweep twice at one reading of the clock yields the
same stored state as running it once. -/
theorem expireTrades_idempotent (db : DB) (now : Nat) :
    (expireTrades (expireTrades db now).1 now).1 = (expireTrades db now).1 := by
  have h := pendingExpired_after db now
  show (pendingExpired (expireTrades db now).1 now).foldl
    (fun d t => expireStep d t.id) (expireTrades db now).1 =
    (expireTrades db now).1
  rw [h]
  rfl

/-- C8 counterexample: a pending trade whose expiry is long past is still
processed by `respondToTrade` — there is no expiry check. -/
theorem respond_ignores_expiry :
    (findTrade expiredPendingDB "tE").map (fun t => (t.status, t.expires_at)) =
      some ("pending", 0) ∧
    respondToTrade expiredPendingDB "tE" "B" TradeAction.decline =
      Except.ok (respondAndCommit expiredPendingDB "tE" "B"
        TradeAction.decline, "decline") ∧
    (findTrade (respondAndCommit expiredPendingDB "tE" "B"
      TradeAction.decline) "tE").map (fun t => t.status) = some "declined" := by
  decide

/-- C8 (amended): `respondToTrade` rejects a caller other than the
receiver, and rejects a non-pending trade, in both cases leaving the
state unchanged; it performs no check against `expires_at`. -/
theorem respondToTrade_guards (db : DB) (tid uid : String) (a : TradeAction)
    (trade : Trade) (hft : findTrade db tid = some trade) :
    (trade.receiver_id ≠ uid →
      respondToTrade db tid uid a =
        Except.error "Only the receiver can respond to a trade" ∧
      respondAndCommit db tid uid a = db) ∧
    (trade.receiver_id = uid → trade.status ≠ "pending" →
      respondToTrade db tid uid a =
        Except.error "Trade is no longer pending" ∧
      respondAndCommit db tid uid a = db) := by
  constructor
  · intro h1
    have he : respondToTrade db tid uid a =
        Except.error "Only the receiver can respond to a trade" := by
      unfold respondToTrade
      rw [hft]
      simp only
      rw [if_pos h1]
    exact ⟨he, by unfold respondAndCommit; rw [he]⟩
  · intro h1 h2
    have he : respondToTrade db tid uid a =
        Except.error "Trade is no longer pending" := by
      unfold respondToTrade
      rw [hft]
      simp only
      rw [if_neg (fun hne => hne h1), if_pos h2]
    exact ⟨he, by unfold respondAndCommit; rw [he]⟩

/-- Witness for the amended C8: a wrong caller and a resolved trade. -/
theorem respondToTrade_guards_witness :
    (respondToTrade resolvedTradeDB "tF" "C" TradeAction.decline =
        Except.error "Only the receiver can respond to a trade" ∧
      respondAndCommit resolvedTradeDB "tF" "C" TradeAction.decline =
        resolvedTradeDB) ∧
    (respondToTrade resolvedTradeDB "tF" "B" TradeAction.decline =
        Except.error "Trade is no longer pending" ∧
      respondAndCommit resolvedTradeDB "tF" "B" TradeAction.decline =
        resolvedTradeDB) :=
  ⟨(respondToTrade_guards resolvedTradeDB "tF" "C" TradeAction.decline
      { id := "tF", proposer_id := "P", receiver_id := "B",
        status := "completed", expires_at := 1000 } (by decide)).1 (by decide),
   (respondToTrade_guards resolvedTradeDB "tF" "B" TradeAction.decline
      { id := "tF", proposer_id := "P", receiver_id := "B",
        status := "completed", expires_at := 1000 } (by decide)).2 rfl
     (by decide)⟩

/-- C9 counterexample: a proposal addressed to the proposer themselves,
offering a negative credit amount, is created successfully as a pending
trade. -/
theorem createTrade_accepts_self_trade_and_negative_credits :
    selfTradeReq.receiver_id = "A" ∧
    selfTradeReq.items.map (fun i => i.credits_offered) = [some (-5)] ∧
    createTrade emptyDB "A" selfTradeReq 0 =
      Except.ok (selfTradeResultDB, selfTradeResult) := by
  decide

/-- C9 (amended): `createTrade` validates exactly the two
SELECT-and-count checks (offered files owned by the proposer and
transferable; requested files transferable and unlocked); on success it
creates one pending trade expiring at now plus the ttl and touches no
other table. -/
theorem createTrade_validations (db : DB) (pid : String)
    (req : CreateTradeRequest) (now : Nat) :
    ((∃ r, createTrade db pid req now = Except.ok r) ↔
      (offeredIdsOf req = [] ∨
        (ownershipRows db (offeredIdsOf req) pid).length =
          (offeredIdsOf req).length) ∧
      ((requestedIdsOf req).length = 0 ∨
        (availabilityRows db (requestedIdsOf req)).length =
          (requestedIdsOf req).length)) ∧
    (∀ db1 trade, createTrade db pid req now = Except.ok (db1, trade) →
      trade.status = "pending" ∧ trade.expires_at = now + ttlOf req ∧
      trade.proposer_id = pid ∧ trade.receiver_id = req.receiver_id ∧
      db1.trades = db.trades ++ [trade] ∧
      db1.track_files = db.track_files ∧
      db1.credits_transactions = db.credits_transactions ∧
      db1.access_grants = db.access_grants) := by
  refine ⟨createTrade_ok_iff db pid req now, ?_⟩
  intro db1 trade h
  obtain ⟨ht, h2, h3, h4, h5⟩ := createTrade_ok_tables h
  refine ⟨?_, ?_, ?_, ?_, h2, h3, h4, h5⟩ <;> rw [ht] <;> rfl

/-- Witness for the amended C9 on the plain request. -/
theorem createTrade_validations_witness :
    wtrade9.status = "pending" ∧ wtrade9.expires_at = 5 + ttlOf plainReq ∧
    wtrade9.proposer_id = "P" ∧ wtrade9.receiver_id = plainReq.receiver_id ∧
    wdb9.trades = emptyDB.trades ++ [wtrade9] ∧
    wdb9.track_files = emptyDB.track_files ∧
    wdb9.credits_transactions = emptyDB.credits_transactions ∧
    wdb9.access_grants = emptyDB.access_grants :=
  (createTrade_validations emptyDB "P" plainReq 5).2 wdb9 wtrade9 (by decide)

/-- C10: a caller who is neither proposer nor receiver of an existing
trade gets an access-denied error from `getTrade` and no trade data. -/
theorem getTrade_access_denied (db : DB) (tid uid : String) (trade : Trade)
    (hft : findTrade db tid = some trade)
    (hp : trade.proposer_id ≠ uid) (hr : trade.receiver_id ≠ uid) :
    getTrade db tid uid = Except.error "Access denied" := by
  unfold getTrade
  rw [hft]
  simp only
  rw [if_pos ⟨hp, hr⟩]

/-- Witness for C10 at scenario A with an unrelated caller. -/
theorem getTrade_access_denied_witness :
    getTrade scenarioA "t1" "C" = Except.error "Access denied" :=
  getTrade_access_denied scenarioA "t1" "C"
    { id := "t1", proposer_id := "A", receiver_id := "B",
      status := "pending", expires_at := 1000 }
    (by decide) (by decide) (by decide)

end DJThrift
